import Mathlib

/-!
Verification of the BenchBoost_V2 frontend API client and UI state logic,
together with spec-modelled views of the backend cache and ingestion job.

The definitions below are shallow embeddings of the TypeScript source:
  - `src/frontend/src/api/client.ts` (apiFetch, request builders, news helpers,
    getOrCreateSessionId),
  - `src/frontend/src/App.tsx` (handleSend),
  - the ManagerContext provider (loadManagerData / loadManagerInfo).
Asynchronous effects are made explicit: each embedded function takes the
outcome of its HTTP fetch as an argument and returns the resulting value or
error together with the state it leaves behind.  JavaScript string quirks
(truthiness of the empty string and of the number 0, `parseInt` prefix
parsing, `String.prototype.trim`) are modelled faithfully.
-/

namespace BenchBoost

/-! ## JavaScript string primitives -/

/-- Whitespace test used by the model of `String.prototype.trim` and of the
leading-whitespace skipping in `parseInt`.  The JavaScript whitespace class is
larger; only these four characters matter for the properties proved here. -/
def isWs (c : Char) : Bool := c = ' ' || c = '\t' || c = '\n' || c = '\r'

/-- `String.prototype.trim` on the character-list level: drop whitespace from
both ends. -/
def jsTrimList (l : List Char) : List Char :=
  ((l.dropWhile isWs).reverse.dropWhile isWs).reverse

/-- Model of `String.prototype.trim`. -/
def jsTrim (s : String) : String := ⟨jsTrimList s.data⟩

/-- JavaScript `a || b` for strings: the empty string is falsy. -/
def jsOrString (a b : String) : String := if a = "" then b else a

/-- JavaScript `(x?.message || d)` where `x?.message` may be absent: an absent
or empty message falls back to the default. -/
def jsOrDefault (m : Option String) (d : String) : String :=
  match m with
  | some s => if s = "" then d else s
  | none => d

/-- Splits an optional leading sign, as `parseInt` does. -/
def signSplit (l : List Char) : Int × List Char :=
  match l with
  | '-' :: rest => (-1, rest)
  | '+' :: rest => (1, rest)
  | _ => (1, l)

/-- Numeric value of a list of decimal digit characters. -/
def digitsToNat (l : List Char) : Nat :=
  l.foldl (fun a c => a * 10 + (c.toNat - '0'.toNat)) 0

/-- Model of JavaScript `parseInt(s, 10)`: skip leading whitespace, read an
optional sign, then the longest prefix of decimal digits; `none` models `NaN`
(no digits at all).  Trailing garbage is ignored, so `parseIntJS "12abc" =
some 12`. -/
def parseIntJS (s : String) : Option Int :=
  let l := s.data.dropWhile isWs
  let sg := signSplit l
  let ds := sg.2.takeWhile (fun c => c.isDigit)
  if ds.isEmpty then none else some (sg.1 * Int.ofNat (digitsToNat ds))

/-! ## HTTP response model and `apiFetch` (client.ts lines 108-122)

A `Response` packages what `apiFetch` inspects on a `fetch` result: the
status code, the body as text (`none` when `res.text()` rejects, which the
source maps to `''` via `.catch(() => '')`), the `statusText`, and the value
`res.json()` would produce.  A rejected `fetch` itself (network error) is an
`Except.error` around the whole response. -/

structure Response (α : Type) where
  status : Nat
  bodyText : Option String
  statusText : String
  jsonBody : α
deriving DecidableEq

/-- A JavaScript `Error` as far as the client observes it: its message. -/
structure JsError where
  message : String
deriving DecidableEq

/-- `res.ok`: status in the inclusive range 200-299. -/
def resOk (r : Response α) : Bool :=
  decide (200 ≤ r.status) && decide (r.status ≤ 299)

/-- `await res.text().catch(() => '')`. -/
def bodyDetail (r : Response α) : String := r.bodyText.getD ""

/-- The message of the error thrown on a non-2xx response:
`` `API error ${res.status}: ${detail || res.statusText}` ``. -/
def apiErrorMessage (r : Response α) : String :=
  "API error " ++ toString r.status ++ ": " ++ jsOrString (bodyDetail r) r.statusText

/-- `apiFetch` from client.ts, as a function of the fetch outcome: a network
rejection propagates unchanged; a non-2xx response becomes a thrown `Error`
with `apiErrorMessage`; a 2xx response returns the parsed JSON body. -/
def apiFetch (fetched : Except JsError (Response α)) : Except JsError α :=
  match fetched with
  | .error e => .error e
  | .ok r => if resOk r then .ok r.jsonBody else .error ⟨apiErrorMessage r⟩

/-! ## Request builders (client.ts lines 124-189)

Each client function calls `fetch` exactly once; the `HttpRequest` it builds
records the URL (with `API_BASE` prefixed as in `apiFetch`), the method (the
`fetch` default `GET` when no options are passed), and the body. -/

/-- Request payload of `POST /api/query` (the `QueryRequest` type of
client.ts); optional fields model the `?:` TypeScript fields. -/
structure QueryRequest where
  query : String
  session_id : Option String := none
  manager_id : Option Int := none
  tools : Option (List String) := none
deriving DecidableEq

/-- Body of an outgoing request: nothing, or the JSON serialization of a
`QueryRequest` (`JSON.stringify(req)`), modelled by the value serialized. -/
inductive RequestBody
  | empty
  | jsonQuery (req : QueryRequest)
deriving DecidableEq

structure HttpRequest where
  url : String
  method : String
  body : RequestBody
deriving DecidableEq

/-- `const API_BASE = ''`. -/
def API_BASE : String := ""

/-- `health()`: `GET /api/health`. -/
def healthRequest : HttpRequest :=
  { url := API_BASE ++ "/api/health", method := "GET", body := .empty }

/-- `getManagerInfo(entryId)`: `GET /api/manager/{entryId}`. -/
def getManagerInfoRequest (entryId : Int) : HttpRequest :=
  { url := API_BASE ++ "/api/manager/" ++ toString entryId, method := "GET", body := .empty }

/-- `getManagerTeam(entryId, event?)`: `GET /api/manager/{entryId}/team`,
with `?event={event}` appended when `event` is truthy.  JavaScript truthiness
makes `0` take the no-query branch, exactly as `event ? a : b` does in the
source. -/
def getManagerTeamRequest (entryId : Int) (event : Option Int) : HttpRequest :=
  { url := API_BASE ++
      (match event with
       | some e =>
           if e = 0 then "/api/manager/" ++ toString entryId ++ "/team"
           else "/api/manager/" ++ toString entryId ++ "/team?event=" ++ toString e
       | none => "/api/manager/" ++ toString entryId ++ "/team"),
    method := "GET", body := .empty }

/-- `getPlayerNews()`: `GET /api/news`. -/
def getPlayerNewsRequest : HttpRequest :=
  { url := API_BASE ++ "/api/news", method := "GET", body := .empty }

/-- `refreshPlayerNews()`: `POST /api/news/refresh`. -/
def refreshPlayerNewsRequest : HttpRequest :=
  { url := API_BASE ++ "/api/news/refresh", method := "POST", body := .empty }

/-- `ask(req)`: `POST /api/query` with the JSON-encoded request. -/
def askRequest (req : QueryRequest) : HttpRequest :=
  { url := API_BASE ++ "/api/query", method := "POST", body := .jsonQuery req }

/-- `getChats()`: `GET /api/chats` (no options, so the `fetch` default GET). -/
def getChatsRequest : HttpRequest :=
  { url := API_BASE ++ "/api/chats", method := "GET", body := .empty }

/-- `createChat()`: `POST /api/chats`. -/
def createChatRequest : HttpRequest :=
  { url := API_BASE ++ "/api/chats", method := "POST", body := .empty }

/-- `deleteChat(sessionId)`: `DELETE /api/chats/{sessionId}`. -/
def deleteChatRequest (sessionId : String) : HttpRequest :=
  { url := API_BASE ++ "/api/chats/" ++ sessionId, method := "DELETE", body := .empty }

/-- `getChatHistory(sessionId)`: `GET /api/chats/{sessionId}`. -/
def getChatHistoryRequest (sessionId : String) : HttpRequest :=
  { url := API_BASE ++ "/api/chats/" ++ sessionId, method := "GET", body := .empty }

/-! ## Per-endpoint results

Every client function except the two news helpers simply returns the value of
`apiFetch`, so its failures (non-2xx and network) reach the caller as
exceptions, with no retry. -/

def askResult (fetched : Except JsError (Response α)) : Except JsError α := apiFetch fetched

def getManagerInfoResult (fetched : Except JsError (Response α)) : Except JsError α :=
  apiFetch fetched

def getManagerTeamResult (fetched : Except JsError (Response α)) : Except JsError α :=
  apiFetch fetched

def getChatsResult (fetched : Except JsError (Response α)) : Except JsError α := apiFetch fetched

def createChatResult (fetched : Except JsError (Response α)) : Except JsError α :=
  apiFetch fetched

def deleteChatResult (fetched : Except JsError (Response α)) : Except JsError α :=
  apiFetch fetched

def getChatHistoryResult (fetched : Except JsError (Response α)) : Except JsError α :=
  apiFetch fetched

/-- `getPlayerNews` (client.ts lines 139-146): wraps `apiFetch('/api/news')`
in try/catch and returns `[]` on any failure, so no exception escapes. -/
def getPlayerNews (fetched : Except JsError (Response (List α))) : Except JsError (List α) :=
  match apiFetch fetched with
  | .ok v => .ok v
  | .error _ => .ok []

/-- `refreshPlayerNews` (client.ts lines 148-156): try/catch around
`apiFetch('/api/news/refresh')`; on success returns `response.data || []`
(the `data` field may be absent), on failure returns `[]`. -/
def refreshPlayerNews (fetched : Except JsError (Response (Option (List α)))) :
    Except JsError (List α) :=
  match apiFetch fetched with
  | .ok d => .ok (d.getD [])
  | .error _ => .ok []

/-! ## Chat turn state machine (`handleSend` in App.tsx lines 37-60)

The component state relevant to a chat turn, with the `useState` setters
replaced by explicit record updates.  One call of `handleSend` is modelled as
a single transition taking the text argument and the outcome of the awaited
`ask` call (an answer, or a rejection carrying an optional error message,
covering `err?.message ?? ''`). -/

inductive Role
  | user
  | assistant
deriving DecidableEq

structure Message where
  role : Role
  content : String
deriving DecidableEq

/-- Response type of `POST /api/query` (`QueryResponse` in client.ts):
`answer` plus an optional opaque `raw_output` payload. -/
structure QueryResponse (ρ : Type) where
  answer : String
  raw_output : Option ρ := none
deriving DecidableEq

structure ChatState where
  messages : List Message
  input : String
  isLoading : Bool
  showSuggestions : Bool
deriving DecidableEq

/-- Content of the assistant message on a failed `ask` call:
`` `Sorry, I couldn't process that. ${err?.message ?? ''}`.trim() ``. -/
def apologyContent (errMsg : Option String) : String :=
  jsTrim ("Sorry, I couldn\x27t process that. " ++ errMsg.getD "")

/-- Content of the assistant message appended by `handleSend`. -/
def assistantContent (outcome : Except (Option String) (QueryResponse ρ)) : String :=
  match outcome with
  | .ok res => res.answer
  | .error em => apologyContent em

/-- `handleSend(text)`: returns unchanged state when `!text.trim()` (empty
string is falsy) or a send is already loading; otherwise hides the
suggestions, appends the user message, clears the input, and after the `ask`
outcome appends the assistant message, with `isLoading` reset in the
`finally` block. -/
def handleSend (s : ChatState) (text : String)
    (outcome : Except (Option String) (QueryResponse ρ)) : ChatState :=
  if jsTrim text = "" ∨ s.isLoading then s
  else
    { messages := s.messages ++
        [{ role := .user, content := text }, { role := .assistant, content := assistantContent outcome }],
      input := "",
      isLoading := false,
      showSuggestions := false }

/-- The message list alternates user/assistant starting with a user message
(and therefore has even length): it is a concatenation of user/assistant
pairs. -/
def alternatesFromUser : List Message → Bool
  | [] => true
  | _ :: [] => false
  | u :: a :: rest =>
      decide (u.role = Role.user) && decide (a.role = Role.assistant) && alternatesFromUser rest

/-! ## Manager loading (ManagerContext provider / `useManagerData` hook)

`loadManagerData(id, includeTeam)` and `loadManagerInfo(id)` as transitions
on the manager state.  The `ι` and `τ` parameters stand for the
`ManagerData` and `ManagerTeam` payload types; `storedManagerId` models the
`localStorage` entry under the key `fpl_manager_id`.  Besides the final
state, each function returns the list of HTTP requests it issued, in order. -/

/-- Outcome of an awaited client call: a value, or a rejection carrying
`err?.message` when present. -/
inductive Outcome (α : Type)
  | ok (val : α)
  | err (msg : Option String)
deriving DecidableEq

structure ManagerState (ι τ : Type) where
  managerData : Option ι
  managerTeam : Option τ
  error : String
  isLoading : Bool
  storedManagerId : Option String
deriving DecidableEq

/-- `loadManagerData` (ManagerContext lines 44-74): parse the id with
`parseInt(id, 10)`; on `NaN` the thrown guard error is caught below, with no
request issued; otherwise fetch the manager info, and on its success persist
the raw id string and optionally fetch the team, a team failure being
swallowed with only a console warning. -/
def loadManagerData (s : ManagerState ι τ) (id : String) (includeTeam : Bool)
    (infoOutcome : Outcome ι) (teamOutcome : Outcome τ) :
    ManagerState ι τ × List HttpRequest :=
  match parseIntJS id with
  | none =>
      ({ s with error := "Please enter a valid numeric ID", managerData := none,
                managerTeam := none, isLoading := false }, [])
  | some numId =>
      match infoOutcome with
      | .err m =>
          ({ s with error := jsOrDefault m "Failed to fetch manager data",
                    managerData := none, managerTeam := none, isLoading := false },
           [getManagerInfoRequest numId])
      | .ok info =>
          if includeTeam then
            match teamOutcome with
            | .ok team =>
                ({ s with error := "", managerData := some info, managerTeam := some team,
                          storedManagerId := some id, isLoading := false },
                 [getManagerInfoRequest numId, getManagerTeamRequest numId none])
            | .err _ =>
                ({ s with error := "", managerData := some info,
                          storedManagerId := some id, isLoading := false },
                 [getManagerInfoRequest numId, getManagerTeamRequest numId none])
          else
            ({ s with error := "", managerData := some info,
                      storedManagerId := some id, isLoading := false },
             [getManagerInfoRequest numId])

/-- `loadManagerInfo` (ManagerContext lines 76-95): like `loadManagerData`
but never touches the team. -/
def loadManagerInfo (s : ManagerState ι τ) (id : String) (infoOutcome : Outcome ι) :
    ManagerState ι τ × List HttpRequest :=
  match parseIntJS id with
  | none =>
      ({ s with error := "Please enter a valid numeric ID", managerData := none,
                isLoading := false }, [])
  | some numId =>
      match infoOutcome with
      | .err m =>
          ({ s with error := jsOrDefault m "Failed to fetch manager data",
                    managerData := none, isLoading := false },
           [getManagerInfoRequest numId])
      | .ok info =>
          ({ s with error := "", managerData := some info,
                    storedManagerId := some id, isLoading := false },
           [getManagerInfoRequest numId])

/-! ## Session id (client.ts lines 191-199) -/

/-- The fresh id generated when none is stored:
`` `${Date.now().toString(36)}-${Math.random().toString(36).slice(2, 10)}` ``,
as a function of its two nondeterministic parts. -/
def genSessionId (nowB36 rand : String) : String := nowB36 ++ "-" ++ rand

/-- `getOrCreateSessionId`, as a function of the stored
`localStorage['fpl_session_id']` entry and of the fresh id that would be
generated; returns the session id and the entry afterwards.  The guard is
`if (!sid)`, so an entry holding the empty string counts as absent. -/
def getOrCreateSessionId (stored : Option String) (fresh : String) : String × Option String :=
  match stored with
  | some sid => if sid = "" then (fresh, some fresh) else (sid, some sid)
  | none => (fresh, some fresh)

/-! ## Spec-modelled backend: in-memory cache

Modelled from the spec: the backend cache module is not under src/ (only the
frontend, launch scripts and docs are), so this follows spec sections 4.2 and
5 — dictionaries built once from the bootstrap payload, indexed by id and by
lowercased name, read-only after startup.  Lookups return the found object
together with the cache state they leave behind, which makes the read-only
discipline a provable statement rather than an assumption. -/

structure Cache (α : Type) where
  byId : List (Nat × α)
  byName : List (String × α)
deriving DecidableEq

/-- Modelled from the spec: startup population — index the bootstrap entities
(id, name, payload) into the two dictionaries, lowercasing the name keys. -/
def buildCache (entities : List (Nat × String × α)) : Cache α :=
  { byId := entities.map (fun e => (e.1, e.2.2)),
    byName := entities.map (fun e => (e.2.1.toLower, e.2.2)) }

/-- Modelled from the spec: lookup by id; a pure dictionary read. -/
def lookupById (c : Cache α) (id : Nat) : Option α × Cache α :=
  ((c.byId.find? (fun p => p.1 == id)).map (fun p => p.2), c)

/-- Modelled from the spec: lookup by name, lowercasing the query to match
the lowercased keys. -/
def lookupByName (c : Cache α) (name : String) : Option α × Cache α :=
  ((c.byName.find? (fun p => p.1 == name.toLower)).map (fun p => p.2), c)

/-! ## Spec-modelled backend: ingestion

Modelled from the spec: the ingestion script is not under src/, so this
follows spec sections 3 and 4.3 — a run walks the upstream data and performs
one upsert per document into the store, each collection keyed by the
document's natural id.  The store is a map from collection name and id to the
stored document. -/

/-- Modelled from the spec: a single upsert, overwriting the document stored
under (collection, natural id) wholesale. -/
def upsertDoc (store : String → Nat → Option δ) (coll : String) (id : Nat) (doc : δ) :
    String → Nat → Option δ :=
  fun c i => if c = coll ∧ i = id then some doc else store c i

/-- Modelled from the spec: one ingestion run, upserting every upstream
document (collection, id, payload) in order. -/
def ingestionRun (store : String → Nat → Option δ) (upstream : List (String × Nat × δ)) :
    String → Nat → Option δ :=
  upstream.foldl (fun st rec => upsertDoc st rec.1 rec.2.1 rec.2.2) store

/-- The last upstream document written for a given collection and id, if
any: the value an ingestion run leaves there. -/
def lastUpsert (upstream : List (String × Nat × δ)) (c : String) (i : Nat) : Option δ :=
  match upstream with
  | [] => none
  | rec :: rest =>
      (lastUpsert rest c i).or (if c = rec.1 ∧ i = rec.2.1 then some rec.2.2 else none)

/-! ## Concrete fixtures used by witnesses -/

/-- A failing HTTP response used by witnesses. -/
def respW : Response Nat := { status := 404, bodyText := some "missing", statusText := "Not Found", jsonBody := 0 }

/-- A failing response for the news list endpoint. -/
def respNewsW : Response (List Nat) :=
  { status := 500, bodyText := some "boom", statusText := "Internal Server Error", jsonBody := [3] }

/-- A failing response for the news refresh endpoint. -/
def respRefreshW : Response (Option (List Nat)) :=
  { status := 500, bodyText := some "boom", statusText := "Internal Server Error", jsonBody := some [3] }

/-- An initial chat state used by witnesses. -/
def chatW : ChatState := { messages := [], input := "", isLoading := false, showSuggestions := true }

/-- An initial manager state used by witnesses. -/
def managerW : ManagerState Nat Nat :=
  { managerData := none, managerTeam := some 9, error := "old", isLoading := true,
    storedManagerId := none }

/-! ## Helper lemmas -/

/-- `API_BASE` is the empty string, so prefixing it leaves URLs unchanged. -/
theorem API_BASE_append (s : String) : API_BASE ++ s = s := by
  cases s
  rfl

/-- Dropping leading whitespace keeps the apology string, whose first
character is not whitespace. -/
theorem apology_head_keep (x : List Char) :
    List.dropWhile isWs ("Sorry, I couldn\x27t process that.".data ++ x) =
      "Sorry, I couldn\x27t process that.".data ++ x := by
  have h : "Sorry, I couldn\x27t process that.".data =
      'S' :: "orry, I couldn\x27t process that.".data := by decide
  rw [h, List.cons_append, List.dropWhile_cons_of_neg (by decide)]

/-- Trimming trailing whitespace distributes over an append whose left part
ends in a non-whitespace character. -/
theorem rightTrim_append (p m : List Char) (hp : p.reverse.dropWhile isWs = p.reverse) :
    ((p ++ m).reverse.dropWhile isWs).reverse =
      p ++ (m.reverse.dropWhile isWs).reverse := by
  rw [List.reverse_append, List.dropWhile_append]
  by_cases h : (m.reverse.dropWhile isWs).isEmpty = true
  · have hnil : m.reverse.dropWhile isWs = [] := by simpa using h
    rw [if_pos h, hp, List.reverse_reverse, hnil]
    simp
  · rw [if_neg h, List.reverse_append, List.reverse_reverse]

/-- Trimming a string that starts with the apology prefix keeps that prefix
intact and only trims the tail. -/
theorem jsTrimList_apology (x : List Char) :
    jsTrimList ("Sorry, I couldn\x27t process that.".data ++ x) =
      "Sorry, I couldn\x27t process that.".data ++ (x.reverse.dropWhile isWs).reverse := by
  unfold jsTrimList
  rw [apology_head_keep x, rightTrim_append _ _ (by decide)]

/-- The assistant message produced for a failed ask call always begins with
the fixed apology sentence. -/
theorem apologyContent_prefix (em : Option String) :
    "Sorry, I couldn\x27t process that.".data <+: (apologyContent em).data := by
  have hdata : ("Sorry, I couldn\x27t process that. " ++ em.getD "").data =
      "Sorry, I couldn\x27t process that.".data ++ (' ' :: (em.getD "").data) := by
    rw [String.data_append]
    rw [show "Sorry, I couldn\x27t process that. ".data =
        "Sorry, I couldn\x27t process that.".data ++ [' '] from by decide]
    rw [List.append_assoc]
    rfl
  have hd : (apologyContent em).data =
      jsTrimList ("Sorry, I couldn\x27t process that.".data ++ (' ' :: (em.getD "").data)) := by
    rw [show (apologyContent em).data
        = jsTrimList ("Sorry, I couldn\x27t process that. " ++ em.getD "").data from rfl, hdata]
  rw [hd, jsTrimList_apology]
  exact List.prefix_append _ _

/-- Concatenating two alternating user/assistant message lists alternates. -/
theorem alternatesFromUser_append : ∀ (l m : List Message),
    alternatesFromUser l = true → alternatesFromUser m = true →
    alternatesFromUser (l ++ m) = true
  | [], _, _, hm => by simpa using hm
  | [_], _, hl, _ => by simp [alternatesFromUser] at hl
  | _ :: _ :: rest, m, hl, hm => by
    simp only [alternatesFromUser, Bool.and_eq_true, decide_eq_true_eq] at hl
    simp only [List.cons_append, alternatesFromUser, Bool.and_eq_true, decide_eq_true_eq]
    exact ⟨⟨hl.1.1, hl.1.2⟩, alternatesFromUser_append rest m hl.2 hm⟩

/-- What one ingestion run stores under a collection and id: the last
matching upstream document if any, the previous contents otherwise. -/
theorem ingestionRun_lookup (δ : Type) :
    ∀ (upstream : List (String × Nat × δ)) (store : String → Nat → Option δ)
      (c : String) (i : Nat),
      ingestionRun store upstream c i = (lastUpsert upstream c i).or (store c i)
  | [], store, c, i => by simp [ingestionRun, lastUpsert, Option.or]
  | rec :: rest, store, c, i => by
    have step : ingestionRun store (rec :: rest) c i =
        ingestionRun (upsertDoc store rec.1 rec.2.1 rec.2.2) rest c i := by
      simp [ingestionRun]
    rw [step, ingestionRun_lookup δ rest (upsertDoc store rec.1 rec.2.1 rec.2.2) c i]
    cases hl : lastUpsert rest c i with
    | some d => simp [lastUpsert, hl, Option.or]
    | none =>
      by_cases hc : c = rec.1 ∧ i = rec.2.1
      · obtain ⟨h1, h2⟩ := hc
        subst h1
        subst h2
        simp [lastUpsert, hl, Option.or, upsertDoc]
      · simp [lastUpsert, hl, Option.or, upsertDoc, hc]

/-! ## Claim theorems -/

/-- C1: apiFetch returns the JSON-parsed body if and only if the response
status is a 2xx success (res.ok); for every non-2xx response it throws an
Error whose message contains the originating HTTP status code and the
response body text, falling back to statusText when the body cannot be
read. -/
theorem C1_apiFetch_status_dichotomy (α : Type) (r : Response α) :
    (resOk r = true → apiFetch (Except.ok r) = Except.ok r.jsonBody) ∧
    (resOk r = false →
      apiFetch (Except.ok r) = Except.error ⟨apiErrorMessage r⟩ ∧
      (toString r.status).data <:+: (apiErrorMessage r).data ∧
      (∀ b, r.bodyText = some b → b.data <:+: (apiErrorMessage r).data) ∧
      (r.bodyText = none → r.statusText.data <:+: (apiErrorMessage r).data)) := by
  constructor
  · intro h
    simp [apiFetch, h]
  · intro h
    refine ⟨by simp [apiFetch, h], ?_, ?_, ?_⟩
    · exact ⟨"API error ".data, (": " ++ jsOrString (bodyDetail r) r.statusText).data, by
        simp [apiErrorMessage, List.append_assoc]⟩
    · intro b hb
      by_cases hbe : b = ""
      · exact hbe ▸ ⟨[], (apiErrorMessage r).data, by simp⟩
      · refine ⟨("API error " ++ toString r.status ++ ": ").data, [], ?_⟩
        simp [apiErrorMessage, jsOrString, bodyDetail, hb, hbe, List.append_assoc]
    · intro hb
      refine ⟨("API error " ++ toString r.status ++ ": ").data, [], ?_⟩
      simp [apiErrorMessage, jsOrString, bodyDetail, hb, List.append_assoc]

/-- Witness for C1 at a concrete 404 response with a readable body. -/
theorem C1_witness :
    resOk respW = false ∧
    apiFetch (Except.ok respW) = Except.error ⟨apiErrorMessage respW⟩ :=
  ⟨by decide, ((C1_apiFetch_status_dichotomy Nat respW).2 (by decide)).1⟩

/-- C2 counterexample: the claim says the query string is appended exactly
when an event argument is supplied, but a supplied event of 0 is falsy in
JavaScript, so `getManagerTeam(5, 0)` requests the bare team URL. -/
theorem C2_counterexample :
    getManagerTeamRequest 5 (some 0) =
      { url := "/api/manager/5/team", method := "GET", body := .empty } ∧
    (getManagerTeamRequest 5 (some 0)).url ≠ "/api/manager/5/team?event=0" := by
  constructor
  · rfl
  · decide

/-- C2 (amended): each client function issues exactly one request to its
endpoint: ask posts the JSON query to /api/query; getManagerInfo gets
/api/manager/{entryId}; getManagerTeam gets /api/manager/{entryId}/team,
appending ?event={event} exactly when an event argument is supplied and
nonzero (a supplied 0 is falsy and omits the query); the chat functions do
their CRUD under /api/chats. -/
theorem C2_client_requests (entryId : Int) (event : Int) (sid : String) (req : QueryRequest) :
    askRequest req = { url := "/api/query", method := "POST", body := .jsonQuery req } ∧
    getManagerInfoRequest entryId =
      { url := "/api/manager/" ++ toString entryId, method := "GET", body := .empty } ∧
    getManagerTeamRequest entryId none =
      { url := "/api/manager/" ++ toString entryId ++ "/team", method := "GET",
        body := .empty } ∧
    (event ≠ 0 → getManagerTeamRequest entryId (some event) =
      { url := "/api/manager/" ++ toString entryId ++ "/team?event=" ++ toString event,
        method := "GET", body := .empty }) ∧
    getManagerTeamRequest entryId (some 0) =
      { url := "/api/manager/" ++ toString entryId ++ "/team", method := "GET",
        body := .empty } ∧
    getChatsRequest = { url := "/api/chats", method := "GET", body := .empty } ∧
    createChatRequest = { url := "/api/chats", method := "POST", body := .empty } ∧
    deleteChatRequest sid =
      { url := "/api/chats/" ++ sid, method := "DELETE", body := .empty } ∧
    getChatHistoryRequest sid =
      { url := "/api/chats/" ++ sid, method := "GET", body := .empty } := by
  refine ⟨?_, ?_, ?_, ?_, ?_, ?_, ?_, ?_, ?_⟩
  · simp [askRequest, API_BASE_append]
  · simp [getManagerInfoRequest, API_BASE_append]
  · simp [getManagerTeamRequest, API_BASE_append]
  · intro h
    simp [getManagerTeamRequest, API_BASE_append, h]
  · simp [getManagerTeamRequest, API_BASE_append]
  · simp [getChatsRequest, API_BASE_append]
  · simp [createChatRequest, API_BASE_append]
  · simp [deleteChatRequest, API_BASE_append]
  · simp [getChatHistoryRequest, API_BASE_append]

/-- Witness for C2 with a nonzero event argument. -/
theorem C2_witness :
    (7 : Int) ≠ 0 ∧
    getManagerTeamRequest 3 (some 7) =
      { url := "/api/manager/" ++ toString (3 : Int) ++ "/team?event=" ++ toString (7 : Int),
        method := "GET", body := .empty } :=
  ⟨by decide, (C2_client_requests 3 7 "s" { query := "q" }).2.2.2.1 (by decide)⟩

/-- C3 counterexample: on a concrete failing (500) response, getPlayerNews
and refreshPlayerNews do not propagate any exception: both return an empty
list, unlike the manager and query functions. -/
theorem C3_counterexample :
    resOk respNewsW = false ∧
    getPlayerNews (Except.ok respNewsW) = Except.ok [] ∧
    resOk respRefreshW = false ∧
    refreshPlayerNews (Except.ok respRefreshW) = Except.ok [] :=
  ⟨rfl, rfl, rfl, rfl⟩

/-- C3 (amended): the manager, query and chat-session client functions
propagate a failed upstream request (non-2xx status or network rejection) to
the caller as the thrown exception, with no retry; the news functions
getPlayerNews and refreshPlayerNews instead catch the failure and return an
empty list. -/
theorem C3_failure_propagation (α δ : Type) (r : Response α) (rl : Response (List δ))
    (ro : Response (Option (List δ))) (e : JsError) :
    (resOk r = false →
      askResult (Except.ok r) = Except.error ⟨apiErrorMessage r⟩ ∧
      getManagerInfoResult (Except.ok r) = Except.error ⟨apiErrorMessage r⟩ ∧
      getManagerTeamResult (Except.ok r) = Except.error ⟨apiErrorMessage r⟩ ∧
      getChatsResult (Except.ok r) = Except.error ⟨apiErrorMessage r⟩ ∧
      createChatResult (Except.ok r) = Except.error ⟨apiErrorMessage r⟩ ∧
      deleteChatResult (Except.ok r) = Except.error ⟨apiErrorMessage r⟩ ∧
      getChatHistoryResult (Except.ok r) = Except.error ⟨apiErrorMessage r⟩) ∧
    askResult (Except.error e : Except JsError (Response α)) = Except.error e ∧
    (resOk rl = false → getPlayerNews (Except.ok rl) = Except.ok []) ∧
    getPlayerNews (Except.error e : Except JsError (Response (List δ))) = Except.ok [] ∧
    (resOk ro = false → refreshPlayerNews (Except.ok ro) = Except.ok []) ∧
    refreshPlayerNews (Except.error e : Except JsError (Response (Option (List δ)))) =
      Except.ok [] := by
  refine ⟨?_, rfl, ?_, rfl, ?_, rfl⟩
  · intro h
    refine ⟨?_, ?_, ?_, ?_, ?_, ?_, ?_⟩ <;>
      simp [askResult, getManagerInfoResult, getManagerTeamResult, getChatsResult,
        createChatResult, deleteChatResult, getChatHistoryResult, apiFetch, h]
  · intro h
    simp [getPlayerNews, apiFetch, h]
  · intro h
    simp [refreshPlayerNews, apiFetch, h]

/-- Witness for C3 at concrete failing responses. -/
theorem C3_witness :
    resOk respW = false ∧
    askResult (Except.ok respW) = Except.error ⟨apiErrorMessage respW⟩ ∧
    getPlayerNews (Except.ok respNewsW) = Except.ok [] :=
  ⟨by decide,
   ((C3_failure_propagation Nat Nat respW respNewsW respRefreshW ⟨"net"⟩).1 (by decide)).1,
   (C3_failure_propagation Nat Nat respW respNewsW respRefreshW ⟨"net"⟩).2.2.1 (by decide)⟩

/-- C4: when the ask call fails with any error, the turn does not fail hard:
handleSend appends an assistant message whose content begins with the
apology sentence (followed by the error message when available), and the
loading flag ends cleared. -/
theorem C4_failed_turn_apology (ρ : Type) (s : ChatState) (text : String) (em : Option String)
    (htext : jsTrim text ≠ "") (hload : s.isLoading = false) :
    (handleSend s text (Except.error em : Except (Option String) (QueryResponse ρ))).messages =
      s.messages ++ [{ role := .user, content := text },
                     { role := .assistant, content := apologyContent em }] ∧
    "Sorry, I couldn\x27t process that.".data <+: (apologyContent em).data ∧
    (handleSend s text
        (Except.error em : Except (Option String) (QueryResponse ρ))).isLoading = false := by
  have hg : ¬ (jsTrim text = "" ∨ s.isLoading = true) := by
    intro h
    rcases h with h | h
    · exact htext h
    · rw [hload] at h
      exact Bool.false_ne_true h
  refine ⟨?_, apologyContent_prefix em, ?_⟩
  · simp [handleSend, hg, assistantContent]
  · simp [handleSend, hg]

/-- Witness for C4 at a concrete failing turn. -/
theorem C4_witness :
    jsTrim "hi" ≠ "" ∧
    chatW.isLoading = false ∧
    (handleSend chatW "hi"
        (Except.error (some "boom") : Except (Option String) (QueryResponse Unit))).messages =
      chatW.messages ++ [{ role := .user, content := "hi" },
                         { role := .assistant, content := apologyContent (some "boom") }] :=
  ⟨by decide, rfl, (C4_failed_turn_apology Unit chatW "hi" (some "boom") (by decide) rfl).1⟩

/-- C8: handleSend leaves the message list unchanged when the trimmed text is
empty or a send is loading; a completed send appends exactly a user message
with the sent text and one assistant message (answer on success, apology on
failure); the alternation invariant (user/assistant pairs starting with a
user message) is preserved. -/
theorem C8_message_list_invariant (ρ : Type) (s : ChatState) (text : String)
    (outcome : Except (Option String) (QueryResponse ρ)) :
    ((jsTrim text = "" ∨ s.isLoading = true) →
      (handleSend s text outcome).messages = s.messages) ∧
    (jsTrim text ≠ "" → s.isLoading = false →
      (handleSend s text outcome).messages =
        s.messages ++ [{ role := .user, content := text },
                       { role := .assistant, content := assistantContent outcome }]) ∧
    (alternatesFromUser s.messages = true →
      alternatesFromUser (handleSend s text outcome).messages = true) := by
  refine ⟨?_, ?_, ?_⟩
  · intro h
    have hg : jsTrim text = "" ∨ s.isLoading = true := h
    simp [handleSend, hg]
  · intro h1 h2
    have hg : ¬ (jsTrim text = "" ∨ s.isLoading = true) := by
      intro h
      rcases h with h | h
      · exact h1 h
      · rw [h2] at h
        exact Bool.false_ne_true h
    simp [handleSend, hg]
  · intro halt
    by_cases hg : jsTrim text = "" ∨ s.isLoading = true
    · simp [handleSend, hg, halt]
    · simp only [handleSend, eq_self_iff_true]
      rw [if_neg hg]
      exact alternatesFromUser_append s.messages _ halt (by simp [alternatesFromUser])

/-- Witness for C8 at a concrete completed send. -/
theorem C8_witness :
    jsTrim "cap?" ≠ "" ∧
    chatW.isLoading = false ∧
    (handleSend chatW "cap?"
        (Except.ok { answer := "Haaland" } : Except (Option String) (QueryResponse Unit))).messages =
      chatW.messages ++
        [{ role := .user, content := "cap?" },
         { role := .assistant,
           content := assistantContent
             (Except.ok { answer := "Haaland" } : Except (Option String) (QueryResponse Unit)) }] :=
  ⟨by decide, rfl,
   (C8_message_list_invariant Unit chatW "cap?"
      (Except.ok { answer := "Haaland" })).2.1 (by decide) rfl⟩

/-- C5: a manager id string whose parseInt is NaN makes loadManagerData and
loadManagerInfo issue no HTTP request, set the error to the fixed guard
message and reset managerData (and managerTeam for loadManagerData) to null;
an id string that parses issues the GET manager request, and on upstream
success the manager data is set.  The guard accepts strings such as 12abc,
which parse to 12. -/
theorem C5_manager_id_guard (ι τ : Type) (s : ManagerState ι τ) (id : String)
    (includeTeam : Bool) (io : Outcome ι) (tov : Outcome τ) :
    (parseIntJS id = none →
      (loadManagerData s id includeTeam io tov).2 = [] ∧
      (loadManagerData s id includeTeam io tov).1.error = "Please enter a valid numeric ID" ∧
      (loadManagerData s id includeTeam io tov).1.managerData = none ∧
      (loadManagerData s id includeTeam io tov).1.managerTeam = none ∧
      (loadManagerInfo s id io).2 = [] ∧
      (loadManagerInfo s id io).1.error = "Please enter a valid numeric ID" ∧
      (loadManagerInfo s id io).1.managerData = none) ∧
    (∀ n : Int, parseIntJS id = some n →
      (loadManagerData s id includeTeam io tov).2.head? = some (getManagerInfoRequest n) ∧
      (loadManagerInfo s id io).2 = [getManagerInfoRequest n] ∧
      (∀ info, io = Outcome.ok info →
        (loadManagerData s id includeTeam io tov).1.managerData = some info ∧
        (loadManagerInfo s id io).1.managerData = some info)) := by
  constructor
  · intro h
    simp [loadManagerData, loadManagerInfo, h]
  · intro n h
    refine ⟨?_, ?_, ?_⟩
    · cases io <;> cases tov <;> cases includeTeam <;> simp [loadManagerData, h]
    · cases io <;> simp [loadManagerInfo, h]
    · intro info hio
      subst hio
      cases tov <;> cases includeTeam <;> simp [loadManagerData, loadManagerInfo, h]

/-- Witness for C5: the string 12abc parses to 12 and triggers the manager
request. -/
theorem C5_witness :
    parseIntJS "12abc" = some 12 ∧
    (loadManagerInfo managerW "12abc" (Outcome.ok 7)).2 = [getManagerInfoRequest 12] :=
  ⟨by decide,
   ((C5_manager_id_guard Nat Nat managerW "12abc" true (Outcome.ok 7)
      (Outcome.ok 1)).2 12 (by decide)).2.1⟩

/-- C9: when getManagerInfo succeeds but getManagerTeam fails inside
loadManagerData, the failure is confined to the team: managerData is the
fresh info, the raw id is persisted under fpl_manager_id, the error string
ends empty, and managerTeam keeps its previous value. -/
theorem C9_team_failure_frame (ι τ : Type) (s : ManagerState ι τ) (id : String) (n : Int)
    (info : ι) (em : Option String) (h : parseIntJS id = some n) :
    (loadManagerData s id true (Outcome.ok info) (Outcome.err em)).1.managerData = some info ∧
    (loadManagerData s id true (Outcome.ok info) (Outcome.err em)).1.storedManagerId = some id ∧
    (loadManagerData s id true (Outcome.ok info) (Outcome.err em)).1.error = "" ∧
    (loadManagerData s id true (Outcome.ok info) (Outcome.err em)).1.managerTeam =
      s.managerTeam := by
  simp [loadManagerData, h]

/-- Witness for C9 at a concrete id; the previous team value survives. -/
theorem C9_witness :
    parseIntJS "77" = some 77 ∧
    (loadManagerData managerW "77" true (Outcome.ok 5) (Outcome.err (some "down"))).1.managerTeam =
      managerW.managerTeam :=
  ⟨by decide,
   (C9_team_failure_frame Nat Nat managerW "77" 77 5 (some "down") (by decide)).2.2.2⟩

/-- C6: running the ingestion job twice in a row with unchanged upstream data
leaves every store collection's contents unchanged after the second run —
the keyed upserts are idempotent. -/
theorem C6_ingestion_idempotent (δ : Type) (store : String → Nat → Option δ)
    (upstream : List (String × Nat × δ)) :
    ingestionRun (ingestionRun store upstream) upstream = ingestionRun store upstream := by
  funext c i
  rw [ingestionRun_lookup δ upstream (ingestionRun store upstream) c i,
    ingestionRun_lookup δ upstream store c i]
  cases lastUpsert upstream c i <;> simp [Option.or]

/-- C7: cache lookups by id and by lowercased name leave the cache state
unchanged, so repeated lookups with the same key return the same object
every time. -/
theorem C7_cache_lookup_idempotent (α : Type) (c : Cache α) (id : Nat) (name : String) :
    (lookupById c id).2 = c ∧
    (lookupById (lookupById c id).2 id).1 = (lookupById c id).1 ∧
    (lookupByName c name).2 = c ∧
    (lookupByName (lookupByName c name).2 name).1 = (lookupByName c name).1 :=
  ⟨rfl, rfl, rfl, rfl⟩

/-- C10 counterexample: with the fpl_session_id entry present but holding
the empty string, the call does not return the stored value unchanged: the
falsy guard regenerates and overwrites it. -/
theorem C10_counterexample :
    getOrCreateSessionId (some "") "k3x-a1b2" = ("k3x-a1b2", some "k3x-a1b2") ∧
    ("k3x-a1b2", (some "k3x-a1b2" : Option String)) ≠ ("", some "") := by
  constructor
  · rfl
  · decide

/-- C10 (amended): with no stored entry, getOrCreateSessionId stores and
returns the fresh id; a stored non-empty entry is returned unchanged with
the store untouched; a stored empty string is falsy under the if-not-sid
guard and is regenerated like a missing entry; generated ids are never
empty, so two consecutive calls with no intervening mutation return equal
session ids. -/
theorem C10_session_id (stored : Option String) (fresh v f1 f2 nowB36 rand : String) :
    getOrCreateSessionId none fresh = (fresh, some fresh) ∧
    (v ≠ "" → getOrCreateSessionId (some v) fresh = (v, some v)) ∧
    getOrCreateSessionId (some "") fresh = (fresh, some fresh) ∧
    genSessionId nowB36 rand ≠ "" ∧
    (f1 ≠ "" →
      (getOrCreateSessionId (getOrCreateSessionId stored f1).2 f2).1 =
        (getOrCreateSessionId stored f1).1) := by
  refine ⟨rfl, ?_, rfl, ?_, ?_⟩
  · intro hv
    simp [getOrCreateSessionId, hv]
  · intro h
    have h2 : (genSessionId nowB36 rand).data = "".data := by rw [h]
    rw [show (genSessionId nowB36 rand).data
        = nowB36.data ++ ("-".data ++ rand.data) from by
          simp [genSessionId, List.append_assoc]] at h2
    rw [show ("-" : String).data = ['-'] from rfl] at h2
    simp at h2
  · intro hf
    cases stored with
    | none => simp [getOrCreateSessionId, hf]
    | some v =>
      by_cases hv : v = "" <;> simp [getOrCreateSessionId, hv, hf]

/-- Witness for C10: a stored non-empty id is returned unchanged. -/
theorem C10_witness :
    ("abc" : String) ≠ "" ∧
    getOrCreateSessionId (some "abc") "z-1" = ("abc", some "abc") :=
  ⟨by decide,
   (C10_session_id (some "abc") "z-1" "abc" "z" "n" "now" "r").2.1 (by decide)⟩

end BenchBoost
